import Mathlib

/-!
Verification of the point-in-country containment engine of
`lironbar1219/IsInCountry_server` (`server/app.py`).

The engine is the helper `is_point_in_polygon(lat, lon, polygon_data)`:
it parses a GeoJSON-shaped payload and tests membership with Shapely
(`Polygon(ring).contains(Point(lon, lat))`), catching
`json.JSONDecodeError / KeyError / IndexError / ValueError` into `False`,
and returning `False` outright when Shapely is unavailable.

Coordinates are embedded as rationals; a point is an `(x, y) = (lon, lat)`
pair, exactly the order the code passes to `Point(lon, lat)`.

Shapely's behaviour, being the library the code delegates to, is embedded
from its documented semantics:
  * `Polygon(coords)` auto-closes the ring (appends the first vertex when
    the last differs) and raises `ValueError` when the closed ring has
    fewer than 4 coordinates, except that an empty list yields the empty
    polygon;
  * `polygon.contains(point)` is true iff the point lies in the interior
    of the polygon: boundary points are NOT contained; for a simple ring
    the interior test is the even-odd (crossing-number) rule restricted
    to points off the boundary.
-/

/-- A planar point `(x, y)` = `(longitude, latitude)`, as handed to
Shapely by `Point(lon, lat)` in `is_point_in_polygon`. -/
abbrev Pt : Type := ℚ × ℚ

namespace Geo

/-- Shapely ring closing: `Polygon(coords)` appends the first coordinate
at the end when the ring is not already explicitly closed. -/
def closeRing (ring : List Pt) : List Pt :=
  if ring.head? = ring.getLast? then ring else ring ++ ring.head?.toList

/-- Consecutive-vertex edges of a vertex list. -/
def edges : List Pt → List (Pt × Pt)
  | [] => []
  | [_] => []
  | a :: b :: rest => (a, b) :: edges (b :: rest)

/-- Whether point `p` lies on the closed segment from `a` to `b`
(collinearity plus bounding-box membership). -/
def onSegment (a b p : Pt) : Bool :=
  (b.1 - a.1) * (p.2 - a.2) == (b.2 - a.2) * (p.1 - a.1) &&
  min a.1 b.1 ≤ p.1 && p.1 ≤ max a.1 b.1 &&
  min a.2 b.2 ≤ p.2 && p.2 ≤ max a.2 b.2

/-- Whether point `p` lies on the boundary traced by a closed vertex
list `cr` (on some edge or at some vertex). -/
def onBoundary (cr : List Pt) (p : Pt) : Bool :=
  (edges cr).any (fun e => onSegment e.1 e.2 p)

/-- The standard ray-casting edge test: the horizontal ray from `p`
toward increasing `x` crosses the edge `(a, b)` (half-open in `y` so
that shared vertices are counted once). -/
def rayCrosses (a b p : Pt) : Bool :=
  (decide (a.2 > p.2) != decide (b.2 > p.2)) &&
  p.1 < a.1 + (b.1 - a.1) * (p.2 - a.2) / (b.2 - a.2)

/-- Number of edges of the closed vertex list `cr` crossed by the
horizontal ray from `p` toward increasing `x`. -/
def crossingCount (cr : List Pt) (p : Pt) : Nat :=
  (edges cr).countP (fun e => rayCrosses e.1 e.2 p)

/-- Shapely `Polygon(ring).contains(point)`: true iff the point is in
the interior of the polygon built on `ring` — off the boundary and with
an odd crossing number for the closed ring. -/
def shapelyContains (ring : List Pt) (p : Pt) : Bool :=
  !(onBoundary (closeRing ring) p) && (crossingCount (closeRing ring) p) % 2 == 1

/-- Whether `Polygon(ring)` constructs without raising `ValueError`:
an empty coordinate list gives the empty polygon, otherwise the closed
ring must have at least 4 coordinates. -/
def validRing (ring : List Pt) : Bool :=
  ring.isEmpty || decide (4 ≤ (closeRing ring).length)

/-- `Polygon(ring).contains(p)` as a fallible step: `ValueError` from
the constructor is an `.error`, otherwise the containment boolean. -/
def polygonContainsE (ring : List Pt) (p : Pt) : Except Unit Bool :=
  if validRing ring then .ok (shapelyContains ring p) else .error ()

/-- The parsed shape of a stored `polygon_data` payload, as seen by
`is_point_in_polygon` after `json.loads`:
`invalidJSON` stands for text rejected by `json.loads`
(`json.JSONDecodeError`); `otherType` for a JSON object whose `type` is
neither `"Polygon"` nor `"MultiPolygon"` (or is missing — `KeyError`);
the two structured constructors carry the `coordinates` arrays. -/
inductive Payload : Type where
  | invalidJSON : Payload
  | otherType : Payload
  | polygon : List (List Pt) → Payload
  | multiPolygon : List (List (List Pt)) → Payload

/-- The `MultiPolygon` loop of `is_point_in_polygon`: for each
`polygon_coords` in order, build `Polygon(polygon_coords[0])` and return
`True` on the first containment hit.  An empty `polygon_coords`
(`IndexError`) or a `ValueError` from the constructor aborts the whole
loop as an error. -/
def multiLoop (polys : List (List (List Pt))) (p : Pt) : Except Unit Bool :=
  match polys with
  | [] => .ok false
  | poly :: rest =>
    match poly with
    | [] => .error ()
    | ring :: _ =>
      match polygonContainsE ring p with
      | .error e => .error e
      | .ok b => if b then .ok true else multiLoop rest p

/-- `is_point_in_polygon(lat, lon, polygon_data)` from `server/app.py`,
with the module-level `SHAPELY_AVAILABLE` flag made an explicit first
argument.  The `except (json.JSONDecodeError, KeyError, IndexError,
ValueError)` handler that returns `False` is the `.toOption.getD false`
collapse of the internal `Except`. -/
def is_point_in_polygon (shapelyAvailable : Bool) (lat lon : ℚ)
    (pd : Payload) : Bool :=
  if !shapelyAvailable then false
  else
    match pd with
    | .invalidJSON => false
    | .otherType => false
    | .polygon rings =>
      match rings with
      | [] => false
      | ring :: _ => ((polygonContainsE ring (lon, lat)).toOption).getD false
    | .multiPolygon polys => ((multiLoop polys (lon, lat)).toOption).getD false

/-- The ring of the stored USA sample boundary
(`initialize_database` in `server/app.py`). -/
def usaRing : List Pt :=
  [(-125, 25), (-66, 25), (-66, 49), (-125, 49), (-125, 25)]

/-- A two-part multi-polygon of disjoint unit squares at (0,0)–(1,1) and
(10,10)–(11,11), in the payload's nested-list shape. -/
def twoSquares : List (List (List Pt)) :=
  [[[(0, 0), (1, 0), (1, 1), (0, 1)]], [[(10, 10), (11, 10), (11, 11), (10, 11)]]]

/-- Reference crossing-number containment, written from the spec's words:
cast a horizontal ray from the point toward increasing longitude over the
implicitly-closed ring; an odd number of edge crossings means inside. -/
def refCrossingInside (ring : List Pt) (p : Pt) : Bool :=
  (crossingCount (closeRing ring) p) % 2 == 1

end Geo

namespace Geo

/-- For a `Polygon` payload the engine tests only the head ring:
the result is containment in the exterior ring when `Polygon` constructs,
and the caught-`ValueError` default `false` otherwise. -/
theorem polygonPayload_eq (lat lon : ℚ) (ring : List Pt)
    (holes : List (List Pt)) :
    is_point_in_polygon true lat lon (.polygon (ring :: holes)) =
      (validRing ring && shapelyContains ring (lon, lat)) := by
  by_cases hv : validRing ring = true
  · simp [is_point_in_polygon, polygonContainsE, hv, Except.toOption]
  · have hv2 : validRing ring = false := by simpa using hv
    simp [is_point_in_polygon, polygonContainsE, hv2, Except.toOption]

/-- When every part of a multi-polygon has a constructible head ring, the
loop never errors and computes the disjunction of the head-ring tests. -/
theorem multiLoop_eq_ok (p : Pt) :
    ∀ polys : List (List (List Pt)),
      (∀ poly ∈ polys, ∃ r t, poly = r :: t ∧ validRing r = true) →
      multiLoop polys p =
        .ok (polys.any fun poly => poly.head?.elim false fun r => shapelyContains r p) := by
  intro polys
  induction polys with
  | nil => intro _; rfl
  | cons poly rest ih =>
    intro hall
    obtain ⟨r, t, rfl, hvr⟩ := hall poly (List.mem_cons_self poly rest)
    have hrest := fun q hq => hall q (List.mem_cons_of_mem _ hq)
    by_cases hc : shapelyContains r p = true
    · simp [multiLoop, polygonContainsE, hvr, hc]
    · have hc2 : shapelyContains r p = false := by simpa using hc
      simp [multiLoop, polygonContainsE, hvr, hc2, ih hrest]

end Geo

namespace Geo

/-- The multi-polygon loop reads only the head (exterior) ring of every
part: payloads agreeing part-by-part on heads run identically. -/
theorem multiLoop_congr (p : Pt) :
    ∀ {ps qs : List (List (List Pt))},
      List.Forall₂ (fun a b => a.head? = b.head?) ps qs →
      multiLoop ps p = multiLoop qs p := by
  intro ps
  induction ps with
  | nil => intro qs h; cases h; rfl
  | cons a ps2 ih =>
    intro qs h
    rcases List.forall₂_cons_left_iff.mp h with ⟨b, qs2, hab, htail, rfl⟩
    cases a with
    | nil =>
      cases b with
      | nil => rfl
      | cons r2 t2 => simp at hab
    | cons r t =>
      cases b with
      | nil => simp at hab
      | cons r2 t2 =>
        have hr : r = r2 := by simpa using hab
        subst hr
        cases hpc : polygonContainsE r p with
        | error e => simp [multiLoop, hpc]
        | ok bb => cases bb <;> simp [multiLoop, hpc, ih htail]

end Geo

namespace Claims

open Geo

/-- C1, counterexample: the point with longitude -100 and latitude 25 lies
exactly on the bottom edge of the stored USA rectangle, yet
`is_point_in_polygon` returns `false` for it, not `true` as claimed —
Shapely `contains` excludes the boundary. -/
theorem C1_counterexample :
    onBoundary (closeRing usaRing) ((-100 : ℚ), (25 : ℚ)) = true ∧
    is_point_in_polygon true 25 (-100) (.polygon [usaRing]) = false := by
  constructor <;>
    norm_num [is_point_in_polygon, multiLoop, polygonContainsE, validRing,
      shapelyContains, onBoundary, onSegment, crossingCount, rayCrosses,
      edges, closeRing, usaRing, Except.toOption, Option.getD]

/-- C1, amended: a point exactly on a ring edge or at a vertex is
classified as OUTSIDE — the containment check returns `false` for it,
both for a `Polygon` payload with that exterior ring and for a
`MultiPolygon` payload whose part has that exterior ring. -/
theorem C1_amended (lat lon : ℚ) (ring : List Pt) (holes : List (List Pt))
    (hb : onBoundary (closeRing ring) (lon, lat) = true) :
    is_point_in_polygon true lat lon (.polygon (ring :: holes)) = false ∧
    is_point_in_polygon true lat lon (.multiPolygon [[ring]]) = false := by
  have hc : shapelyContains ring (lon, lat) = false := by
    simp [shapelyContains, hb]
  constructor
  · rw [polygonPayload_eq, hc, Bool.and_false]
  · by_cases hv : validRing ring = true
    · simp [is_point_in_polygon, multiLoop, polygonContainsE, hv, hc,
        Except.toOption]
    · have hv2 : validRing ring = false := by simpa using hv
      simp [is_point_in_polygon, multiLoop, polygonContainsE, hv2,
        Except.toOption]

/-- C1, witness: the amended statement applied on the USA rectangle at the
boundary point with longitude -100 and latitude 25. -/
theorem C1_witness :
    onBoundary (closeRing usaRing) ((-100 : ℚ), (25 : ℚ)) = true ∧
    (is_point_in_polygon true 25 (-100) (.polygon (usaRing :: [])) = false ∧
     is_point_in_polygon true 25 (-100) (.multiPolygon [[usaRing]]) = false) :=
  ⟨by
    norm_num [onBoundary, onSegment, edges, closeRing, usaRing],
   C1_amended 25 (-100) usaRing [] (by
    norm_num [onBoundary, onSegment, edges, closeRing, usaRing])⟩

/-- C2, counterexample: for the polygon with exterior square (0,0)–(10,10)
and hole square (4,4)–(6,6), the point at latitude 5 and longitude 5 is
inside the hole (and inside the exterior ring), yet the check returns
`true`: the code reads only `coordinates[0]` and ignores hole rings. -/
theorem C2_counterexample :
    shapelyContains [((4 : ℚ), (4 : ℚ)), (6, 4), (6, 6), (4, 6), (4, 4)]
        (5, 5) = true ∧
    shapelyContains [((0 : ℚ), (0 : ℚ)), (10, 0), (10, 10), (0, 10), (0, 0)]
        (5, 5) = true ∧
    is_point_in_polygon true 5 5
        (.polygon [[(0, 0), (10, 0), (10, 10), (0, 10), (0, 0)],
                   [(4, 4), (6, 4), (6, 6), (4, 6), (4, 4)]]) = true := by
  refine ⟨?_, ?_, ?_⟩ <;>
    norm_num [is_point_in_polygon, multiLoop, polygonContainsE, validRing,
      shapelyContains, onBoundary, onSegment, crossingCount, rayCrosses,
      edges, closeRing, Except.toOption, Option.getD]

/-- C2, amended: for a `Polygon` payload containment depends only on the
exterior ring (`coordinates[0]`): it returns true iff that ring constructs
and strictly contains the point; every hole ring is ignored, so a point
inside a hole but inside the exterior still returns true. -/
theorem C2_amended (lat lon : ℚ) (ring : List Pt) (holes : List (List Pt)) :
    is_point_in_polygon true lat lon (.polygon (ring :: holes)) =
      (validRing ring && shapelyContains ring (lon, lat)) :=
  polygonPayload_eq lat lon ring holes

/-- C3: malformed payloads — text that is not valid JSON, an unsupported
`type` such as `"Point"`, and a `Polygon` whose exterior ring has fewer
than 3 vertices — all make the containment check return `false`; in the
embedding every raised error is caught into `false`, so nothing escapes
the engine boundary. -/
theorem C3_malformed (s : Bool) (lat lon : ℚ) (ring : List Pt)
    (holes : List (List Pt)) :
    is_point_in_polygon s lat lon .invalidJSON = false ∧
    is_point_in_polygon s lat lon .otherType = false ∧
    (ring.length < 3 →
      is_point_in_polygon s lat lon (.polygon (ring :: holes)) = false) := by
  cases s
  · exact ⟨rfl, rfl, fun _ => rfl⟩
  · refine ⟨rfl, rfl, fun hlen => ?_⟩
    rw [polygonPayload_eq]
    match ring, hlen with
    | [], _ =>
      simp [validRing, shapelyContains, closeRing, edges, onBoundary,
        crossingCount]
    | [a], _ => simp [validRing, closeRing]
    | [a, b], _ =>
      by_cases hab : a = b
      · subst hab; simp [validRing, closeRing]
      · simp [validRing, closeRing, hab]
    | a :: b :: c :: t, h3 => simp at h3; omega

/-- C3, witness: the length-2 ring gives `false` through the caught
`ValueError`. -/
theorem C3_witness :
    ([((0 : ℚ), (0 : ℚ)), (1, 1)].length < 3) ∧
    is_point_in_polygon true 0 0
      (.polygon [[((0 : ℚ), (0 : ℚ)), (1, 1)]]) = false :=
  ⟨by norm_num,
   (C3_malformed true 0 0 [((0 : ℚ), (0 : ℚ)), (1, 1)] []).2.2 (by norm_num)⟩

/-- C4: for a `MultiPolygon` payload whose every part has a constructible
exterior ring, containment holds iff the polygon containment test holds
for at least one constituent polygon; the loop short-circuits in order on
the first match, and the empty sequence of polygons gives `false`. -/
theorem C4_multipolygon (lat lon : ℚ) (polys : List (List (List Pt)))
    (hall : ∀ poly ∈ polys, ∃ r t, poly = r :: t ∧ validRing r = true) :
    (is_point_in_polygon true lat lon (.multiPolygon polys) = true ↔
      ∃ poly ∈ polys, is_point_in_polygon true lat lon (.polygon poly) = true) ∧
    (∀ poly rest, polys = poly :: rest →
      is_point_in_polygon true lat lon (.multiPolygon polys) =
        (is_point_in_polygon true lat lon (.polygon poly) ||
         is_point_in_polygon true lat lon (.multiPolygon rest))) ∧
    is_point_in_polygon true lat lon
      (.multiPolygon ([] : List (List (List Pt)))) = false := by
  have hm := multiLoop_eq_ok (lon, lat) polys hall
  have hpoly : ∀ poly ∈ polys,
      is_point_in_polygon true lat lon (.polygon poly) =
        poly.head?.elim false fun r => shapelyContains r (lon, lat) := by
    intro poly hp
    obtain ⟨r, t, rfl, hvr⟩ := hall poly hp
    rw [polygonPayload_eq, hvr, Bool.true_and]
    rfl
  refine ⟨?_, ?_, rfl⟩
  · have hval : is_point_in_polygon true lat lon (.multiPolygon polys) =
        (polys.any fun poly =>
          poly.head?.elim false fun r => shapelyContains r (lon, lat)) := by
      simp [is_point_in_polygon, hm, Except.toOption]
    rw [hval, List.any_eq_true]
    constructor
    · rintro ⟨poly, hp, hf⟩
      exact ⟨poly, hp, by rw [hpoly poly hp]; exact hf⟩
    · rintro ⟨poly, hp, hf⟩
      exact ⟨poly, hp, by rw [← hpoly poly hp]; exact hf⟩
  · rintro poly rest rfl
    obtain ⟨r, t, hrt, hvr⟩ := hall poly (List.mem_cons_self _ _)
    subst hrt
    have hrest : ∀ q ∈ rest, ∃ r2 t2, q = r2 :: t2 ∧ validRing r2 = true :=
      fun q hq => hall q (List.mem_cons_of_mem _ hq)
    have hm2 := multiLoop_eq_ok (lon, lat) rest hrest
    by_cases hc : shapelyContains r (lon, lat) = true
    · simp [is_point_in_polygon, multiLoop, polygonContainsE, hvr, hc,
        Except.toOption, polygonPayload_eq]
    · have hc2 : shapelyContains r (lon, lat) = false := by simpa using hc
      simp [is_point_in_polygon, multiLoop, polygonContainsE, hvr, hc2, hm2,
        Except.toOption, polygonPayload_eq]

/-- C4, witness: the two disjoint unit squares, tested at the point with
latitude 10.5 and longitude 10.5 (inside the second square). -/
theorem C4_witness :
    (∀ poly ∈ twoSquares, ∃ r t, poly = r :: t ∧ validRing r = true) ∧
    ((is_point_in_polygon true 10.5 10.5 (.multiPolygon twoSquares) = true ↔
       ∃ poly ∈ twoSquares,
         is_point_in_polygon true 10.5 10.5 (.polygon poly) = true) ∧
     (∀ poly rest, twoSquares = poly :: rest →
       is_point_in_polygon true 10.5 10.5 (.multiPolygon twoSquares) =
         (is_point_in_polygon true 10.5 10.5 (.polygon poly) ||
          is_point_in_polygon true 10.5 10.5 (.multiPolygon rest))) ∧
     is_point_in_polygon true 10.5 10.5
       (.multiPolygon ([] : List (List (List Pt)))) = false) := by
  have hall : ∀ poly ∈ twoSquares, ∃ r t, poly = r :: t ∧ validRing r = true := by
    intro poly hp
    simp only [twoSquares, List.mem_cons, List.not_mem_nil, or_false] at hp
    rcases hp with rfl | rfl
    · exact ⟨_, _, rfl, by norm_num [validRing, closeRing, Prod.ext_iff]⟩
    · exact ⟨_, _, rfl, by norm_num [validRing, closeRing, Prod.ext_iff]⟩
  exact ⟨hall, C4_multipolygon 10.5 10.5 twoSquares hall⟩

/-- C5, counterexample: at the point with longitude -100 and latitude 25,
on the bottom edge of the USA rectangle, the reference crossing-number
test says inside (one crossing, odd) but the code's containment test says
`false`: the two disagree on boundary points. -/
theorem C5_counterexample :
    refCrossingInside usaRing ((-100 : ℚ), (25 : ℚ)) = true ∧
    shapelyContains usaRing ((-100 : ℚ), (25 : ℚ)) = false := by
  constructor <;>
    norm_num [refCrossingInside, shapelyContains, onBoundary, onSegment,
      crossingCount, rayCrosses, edges, closeRing, usaRing]

/-- C5, amended: for every point NOT on the closed ring's boundary, the
code's ring containment test agrees with the reference crossing-number
(ray casting) definition; on boundary points it returns `false`
regardless of the crossing parity. -/
theorem C5_amended (ring : List Pt) (p : Pt)
    (h : onBoundary (closeRing ring) p = false) :
    shapelyContains ring p = refCrossingInside ring p := by
  simp [shapelyContains, refCrossingInside, h]

/-- C5, witness: the amended equivalence at an interior point of the USA
rectangle. -/
theorem C5_witness :
    onBoundary (closeRing usaRing) ((-100 : ℚ), (40 : ℚ)) = false ∧
    shapelyContains usaRing ((-100 : ℚ), (40 : ℚ)) =
      refCrossingInside usaRing ((-100 : ℚ), (40 : ℚ)) :=
  ⟨by norm_num [onBoundary, onSegment, edges, closeRing, usaRing],
   C5_amended usaRing ((-100 : ℚ), (40 : ℚ))
     (by norm_num [onBoundary, onSegment, edges, closeRing, usaRing])⟩

/-- C6: a ring given with its first vertex repeated as its last vertex and
the same ring with that duplicate removed close to the same vertex cycle,
so the ring test and the `Polygon`-payload containment result coincide. -/
theorem C6_closure (s : Bool) (lat lon : ℚ) (v : Pt) (rest : List Pt)
    (hne : (v :: rest).getLast? ≠ some v) :
    shapelyContains ((v :: rest) ++ [v]) (lon, lat) =
      shapelyContains (v :: rest) (lon, lat) ∧
    is_point_in_polygon s lat lon (.polygon [(v :: rest) ++ [v]]) =
      is_point_in_polygon s lat lon (.polygon [v :: rest]) := by
  have hl : ((v :: rest) ++ [v]).getLast? = some v := by
    rw [List.getLast?_concat]
  have e1 : closeRing ((v :: rest) ++ [v]) = (v :: rest) ++ [v] := by
    rw [closeRing, hl, if_pos]
    simp
  have e2 : closeRing (v :: rest) = (v :: rest) ++ [v] := by
    rw [closeRing, if_neg, List.head?_cons, Option.toList_some]
    simp only [List.head?_cons]
    exact fun hcontra => hne hcontra.symm
  have hcont : shapelyContains ((v :: rest) ++ [v]) (lon, lat) =
      shapelyContains (v :: rest) (lon, lat) := by
    rw [shapelyContains, shapelyContains, e1, e2]
  have hval : validRing ((v :: rest) ++ [v]) = validRing (v :: rest) := by
    rw [validRing, validRing, e1, e2]
    simp
  refine ⟨hcont, ?_⟩
  cases s
  · rfl
  · rw [polygonPayload_eq, polygonPayload_eq, hcont, hval]

/-- C6, witness: the explicitly closed USA ring against its implicitly
closed version at an interior point. -/
theorem C6_witness :
    ((((-125 : ℚ), (25 : ℚ)) ::
        [((-66 : ℚ), (25 : ℚ)), (-66, 49), (-125, 49)]).getLast? ≠
      some ((-125 : ℚ), (25 : ℚ))) ∧
    (shapelyContains
        ((((-125 : ℚ), (25 : ℚ)) :: [((-66 : ℚ), (25 : ℚ)), (-66, 49), (-125, 49)]) ++
          [((-125 : ℚ), (25 : ℚ))]) ((-100 : ℚ), (40 : ℚ)) =
      shapelyContains
        (((-125 : ℚ), (25 : ℚ)) :: [((-66 : ℚ), (25 : ℚ)), (-66, 49), (-125, 49)])
        ((-100 : ℚ), (40 : ℚ)) ∧
     is_point_in_polygon true 40 (-100)
        (.polygon [(((-125 : ℚ), (25 : ℚ)) ::
            [((-66 : ℚ), (25 : ℚ)), (-66, 49), (-125, 49)]) ++
          [((-125 : ℚ), (25 : ℚ))]]) =
      is_point_in_polygon true 40 (-100)
        (.polygon [((-125 : ℚ), (25 : ℚ)) ::
            [((-66 : ℚ), (25 : ℚ)), (-66, 49), (-125, 49)]])) :=
  ⟨by norm_num,
   C6_closure true 40 (-100) ((-125 : ℚ), (25 : ℚ))
     [((-66 : ℚ), (25 : ℚ)), (-66, 49), (-125, 49)] (by norm_num)⟩

/-- C7, counterexample: the point with latitude 45.4215 and longitude
-75.6972 (Ottawa) is asserted by the claim to be outside the stored USA
rectangle, but it lies inside lon[-125,-66] × lat[25,49], and the check
returns `true`. -/
theorem C7_counterexample :
    is_point_in_polygon true 45.4215 (-75.6972) (.polygon [usaRing]) = true := by
  norm_num [is_point_in_polygon, multiLoop, polygonContainsE, validRing,
    shapelyContains, onBoundary, onSegment, crossingCount, rayCrosses,
    edges, closeRing, usaRing, Except.toOption, Option.getD]

/-- C7, amended: against the stored USA rectangle — interpreted with each
payload pair as (longitude, latitude) — the point with latitude 40.7128
and longitude -74.0060 returns `true`, and the point with latitude
45.4215 and longitude -75.6972 ALSO returns `true`, since the rectangle
extends to latitude 49 and longitude -66 and therefore contains it. -/
theorem C7_amended :
    is_point_in_polygon true 40.7128 (-74.0060) (.polygon [usaRing]) = true ∧
    is_point_in_polygon true 45.4215 (-75.6972) (.polygon [usaRing]) = true := by
  constructor <;>
    norm_num [is_point_in_polygon, multiLoop, polygonContainsE, validRing,
      shapelyContains, onBoundary, onSegment, crossingCount, rayCrosses,
      edges, closeRing, usaRing, Except.toOption, Option.getD]

/-- C8: the containment check is deterministic — two invocations with
identical latitude, longitude, payload and library-availability flag
return the same boolean; the embedding is a pure function of exactly
these inputs. -/
theorem C8_deterministic (s1 s2 : Bool) (lat1 lat2 lon1 lon2 : ℚ)
    (pd1 pd2 : Payload) (hs : s1 = s2) (hlat : lat1 = lat2)
    (hlon : lon1 = lon2) (hpd : pd1 = pd2) :
    is_point_in_polygon s1 lat1 lon1 pd1 =
      is_point_in_polygon s2 lat2 lon2 pd2 := by
  subst hs; subst hlat; subst hlon; subst hpd; rfl

/-- C8, witness: two identical invocations on the USA rectangle. -/
theorem C8_witness :
    (true = true) ∧ ((25 : ℚ) = 25) ∧ ((-100 : ℚ) = -100) ∧
    (Payload.polygon [usaRing] = Payload.polygon [usaRing]) ∧
    is_point_in_polygon true 25 (-100) (.polygon [usaRing]) =
      is_point_in_polygon true 25 (-100) (.polygon [usaRing]) :=
  ⟨rfl, rfl, rfl, rfl,
   C8_deterministic true true 25 25 (-100) (-100) (.polygon [usaRing])
     (.polygon [usaRing]) rfl rfl rfl rfl⟩

/-- C9: the result depends only on the ring at index 0 of every polygon:
two `Polygon` payloads with the same head ring, or two `MultiPolygon`
payloads agreeing part-by-part on head rings, produce equal results. -/
theorem C9_exterior_only (s : Bool) (lat lon : ℚ)
    (rings1 rings2 : List (List Pt)) (polys1 polys2 : List (List (List Pt))) :
    (rings1.head? = rings2.head? →
      is_point_in_polygon s lat lon (.polygon rings1) =
        is_point_in_polygon s lat lon (.polygon rings2)) ∧
    (List.Forall₂ (fun a b => a.head? = b.head?) polys1 polys2 →
      is_point_in_polygon s lat lon (.multiPolygon polys1) =
        is_point_in_polygon s lat lon (.multiPolygon polys2)) := by
  constructor
  · intro h1
    cases s
    · rfl
    · cases rings1 with
      | nil =>
        cases rings2 with
        | nil => rfl
        | cons r2 t2 => simp at h1
      | cons r1 t1 =>
        cases rings2 with
        | nil => simp at h1
        | cons r2 t2 =>
          have hr : r1 = r2 := by simpa using h1
          subst hr
          simp [is_point_in_polygon]
  · intro h2
    cases s
    · rfl
    · have hml := multiLoop_congr (lon, lat) h2
      simp [is_point_in_polygon, hml]

/-- C9, witness: dropping the hole ring of the holed square does not
change the result at the point with latitude 5 and longitude 5. -/
theorem C9_witness :
    (([[((0 : ℚ), (0 : ℚ)), (10, 0), (10, 10), (0, 10), (0, 0)],
       [((4 : ℚ), (4 : ℚ)), (6, 4), (6, 6), (4, 6), (4, 4)]] :
        List (List Pt)).head? =
      ([[((0 : ℚ), (0 : ℚ)), (10, 0), (10, 10), (0, 10), (0, 0)]] :
        List (List Pt)).head?) ∧
    is_point_in_polygon true 5 5
        (.polygon [[((0 : ℚ), (0 : ℚ)), (10, 0), (10, 10), (0, 10), (0, 0)],
                   [((4 : ℚ), (4 : ℚ)), (6, 4), (6, 6), (4, 6), (4, 4)]]) =
      is_point_in_polygon true 5 5
        (.polygon [[((0 : ℚ), (0 : ℚ)), (10, 0), (10, 10), (0, 10), (0, 0)]]) :=
  ⟨rfl,
   (C9_exterior_only true 5 5
      [[((0 : ℚ), (0 : ℚ)), (10, 0), (10, 10), (0, 10), (0, 0)],
       [((4 : ℚ), (4 : ℚ)), (6, 4), (6, 6), (4, 6), (4, 4)]]
      [[((0 : ℚ), (0 : ℚ)), (10, 0), (10, 10), (0, 10), (0, 0)]] [] []).1 rfl⟩

/-- C10: when the Shapely library is unavailable, `is_point_in_polygon`
returns `false` for every latitude, longitude and payload, including
well-formed payloads whose geometry contains the point. -/
theorem C10_no_shapely (lat lon : ℚ) (pd : Payload) :
    is_point_in_polygon false lat lon pd = false := rfl

end Claims
